import Mathlib

/-!
Verification of `rotate_image_to_gif.py`: a utility that turns a square image
into a looping GIF of a full 360-degree rotation with sinusoidal ease-in-out
timing.  The Python source is shallowly embedded below: floating-point
arithmetic is modelled over `ℝ`, the Python `for` loop with its possible
`ZeroDivisionError` / `IndexError` is modelled with `Except`, and the two
external effects (PIL decode of the input, GIF write of the output) are
modelled by an `Option Image` argument (the decoder's outcome) and by the
`GifOutput` value returned on success (what gets written).
-/

/-- A decoded raster.  The source only ever inspects its size
(`w, h = original.size`); the embedding therefore tracks width and height. -/
structure Image where
  width : Nat
  height : Nat
  deriving DecidableEq, Repr

/-- Modelled from the spec: the external PIL primitive
`original.rotate(theta, resample=Image.BICUBIC, expand=False, fillcolor=(0,0,0,0))`
used at lines 60-65 of the source.  With `expand=False` the rotation is
canvas-preserving: the result has exactly the source's width and height, for
every angle.  Pixel content is irrelevant to the claims and is not tracked. -/
def Image.rotate (img : Image) (_theta : ℝ) : Image :=
  ⟨img.width, img.height⟩

/-- The Python exceptions the embedded code paths can raise, plus
`configError`, the spec's configuration-error class, which the source never
raises (kept so that spec claims about it can be stated and compared). -/
inductive PyError where
  | zeroDivisionError
  | indexError
  | decodeError
  | configError
  deriving DecidableEq, Repr

/-- `ease_in_out_sine` (source lines 19-27):
`return 0.5 * (1 - math.cos(math.pi * t))`. -/
noncomputable def ease_in_out_sine (t : ℝ) : ℝ :=
  0.5 * (1 - Real.cos (Real.pi * t))

/-- One iteration of the angle loop (source lines 50-54):
`t = i / float(n_frames - 1)` raises `ZeroDivisionError` when
`n_frames - 1 == 0`; otherwise
`theta = 360.0 * ease_in_out_sine(t)`. -/
noncomputable def angleAt (n_frames : ℤ) (i : ℕ) : Except PyError ℝ :=
  if n_frames - 1 = 0 then .error .zeroDivisionError
  else .ok (360.0 * ease_in_out_sine ((i : ℝ) / ((n_frames - 1 : ℤ) : ℝ)))

/-- The angle loop body, folded over the list of loop indices; the first
raised exception aborts the loop, exactly as in Python. -/
noncomputable def buildAngles (n_frames : ℤ) : List ℕ → Except PyError (List ℝ)
  | [] => .ok []
  | i :: rest =>
    match angleAt n_frames i with
    | .error e => .error e
    | .ok theta =>
      match buildAngles n_frames rest with
      | .error e => .error e
      | .ok thetas => .ok (theta :: thetas)

/-- The full `angles` list of the source: `for i in range(n_frames)` — for a
non-positive `n_frames`, `range` is empty. -/
noncomputable def anglesList (n_frames : ℤ) : Except PyError (List ℝ) :=
  buildAngles n_frames (List.range n_frames.toNat)

/-- The value `theta_i` produced in the non-raising case. -/
noncomputable def angleVal (n_frames : ℤ) (i : ℕ) : ℝ :=
  360.0 * ease_in_out_sine ((i : ℝ) / ((n_frames - 1 : ℤ) : ℝ))

/-- The angle list of the non-raising case. -/
noncomputable def anglesPure (n_frames : ℤ) : List ℝ :=
  (List.range n_frames.toNat).map (angleVal n_frames)

/-- What a successful run writes to `output_path` (source lines 70-78):
the full frame list (`frames[0]` followed by `append_images=frames[1:]`),
the per-frame duration, and the loop directive. -/
structure GifOutput where
  path : String
  frames : List Image
  duration : ℤ
  loop : ℤ
  deriving DecidableEq, Repr

/-- The keyword arguments of `create_eased_rotating_gif` (source lines 30-36). -/
structure Config where
  input_path : String
  output_path : String
  n_frames : ℤ
  frame_duration_ms : ℤ
  loop_forever : Bool
  deriving DecidableEq, Repr

/-- `create_eased_rotating_gif` (source lines 30-84).  `decoded` is the
outcome of the external decode `Image.open(input_path).convert("RGBA")`
(`none` models a missing/undecodable input, in which case PIL raises before
anything else happens).  An `.ok` result is the single write to
`output_path`; every `.error` result leaves the output untouched, since the
only write in the source is the final `frames[0].save(...)` and every
exception is raised before it. -/
noncomputable def create_eased_rotating_gif (decoded : Option Image) (cfg : Config) :
    Except PyError GifOutput :=
  match decoded with
  | none => .error .decodeError
  | some original =>
    match anglesList cfg.n_frames with
    | .error e => .error e
    | .ok angles =>
      let frames := angles.map (fun theta => original.rotate theta)
      let loop_param : ℤ := if cfg.loop_forever then 0 else 1
      match frames with
      | [] => .error .indexError
      | f0 :: rest => .ok ⟨cfg.output_path, f0 :: rest, cfg.frame_duration_ms, loop_param⟩

/-! ### Helper lemmas about the easing function -/

theorem ease_eq_formula (t : ℝ) :
    ease_in_out_sine t = (1 - Real.cos (Real.pi * t)) / 2 := by
  unfold ease_in_out_sine; ring

theorem ease_zero : ease_in_out_sine 0 = 0 := by
  unfold ease_in_out_sine
  simp

theorem ease_one : ease_in_out_sine 1 = 1 := by
  unfold ease_in_out_sine
  simp [Real.cos_pi]
  norm_num

theorem ease_bounds (t : ℝ) : 0 ≤ ease_in_out_sine t ∧ ease_in_out_sine t ≤ 1 := by
  unfold ease_in_out_sine
  constructor
  · nlinarith [Real.cos_le_one (Real.pi * t)]
  · nlinarith [Real.neg_one_le_cos (Real.pi * t)]

theorem ease_mono {t1 t2 : ℝ} (h0 : 0 ≤ t1) (h12 : t1 ≤ t2) (h1 : t2 ≤ 1) :
    ease_in_out_sine t1 ≤ ease_in_out_sine t2 := by
  unfold ease_in_out_sine
  have hcos : Real.cos (Real.pi * t2) ≤ Real.cos (Real.pi * t1) := by
    apply Real.cos_le_cos_of_nonneg_of_le_pi
    · positivity
    · nlinarith [Real.pi_pos]
    · nlinarith [Real.pi_pos]
  linarith

/-! ### Claim theorems about the easing function -/

/-- Claim C2: the timing function computes `f(t) = (1 - cos(pi * t)) / 2`
for every `t` (in particular on `[0, 1]`), with `f(0) = 0` and `f(1) = 1`
exactly. -/
theorem ease_formula_and_endpoints :
    (∀ t : ℝ, ease_in_out_sine t = (1 - Real.cos (Real.pi * t)) / 2) ∧
      ease_in_out_sine 0 = 0 ∧ ease_in_out_sine 1 = 1 :=
  ⟨ease_eq_formula, ease_zero, ease_one⟩

/-- Claim C7: `ease_in_out_sine` is monotonically non-decreasing on `[0, 1]`:
whenever `0 ≤ t1 < t2 ≤ 1`, `ease_in_out_sine t1 ≤ ease_in_out_sine t2`. -/
theorem ease_monotone_on_unit (t1 t2 : ℝ) (h0 : 0 ≤ t1) (h12 : t1 < t2) (h1 : t2 ≤ 1) :
    ease_in_out_sine t1 ≤ ease_in_out_sine t2 :=
  ease_mono h0 h12.le h1

/-- Witness for C7 at `t1 = 0`, `t2 = 1`. -/
theorem ease_monotone_on_unit_witness :
    (0 : ℝ) ≤ 0 ∧ (0 : ℝ) < 1 ∧ (1 : ℝ) ≤ 1 ∧
      ease_in_out_sine 0 ≤ ease_in_out_sine 1 :=
  ⟨le_refl 0, by norm_num, le_refl 1,
    ease_monotone_on_unit 0 1 (le_refl 0) (by norm_num) (le_refl 1)⟩

/-- Claim C8: `ease_in_out_sine` is symmetric about `t = 0.5`:
`f(t) + f(1 - t) = 1` for every `t`, and `f(0.5) = 0.5`. -/
theorem ease_symmetry :
    (∀ t : ℝ, ease_in_out_sine t + ease_in_out_sine (1 - t) = 1) ∧
      ease_in_out_sine 0.5 = 0.5 := by
  constructor
  · intro t
    unfold ease_in_out_sine
    have h : Real.pi * (1 - t) = Real.pi - Real.pi * t := by ring
    rw [h, Real.cos_pi_sub]
    ring
  · unfold ease_in_out_sine
    have h : Real.pi * 0.5 = Real.pi / 2 := by ring
    rw [h, Real.cos_pi_div_two]
    norm_num

/-- Claim C10: `ease_in_out_sine` is total on all real inputs and always
returns a value in `[0, 1]`, because the cosine term is bounded in `[-1, 1]`. -/
theorem ease_total_bounded :
    ∀ t : ℝ, 0 ≤ ease_in_out_sine t ∧ ease_in_out_sine t ≤ 1 :=
  ease_bounds

/-! ### Helper lemmas about the angle pipeline -/

theorem angleAt_ok {n : ℤ} (h : n - 1 ≠ 0) (i : ℕ) :
    angleAt n i = .ok (angleVal n i) := by
  unfold angleAt angleVal
  rw [if_neg h]

theorem buildAngles_ok {n : ℤ} (h : n - 1 ≠ 0) (l : List ℕ) :
    buildAngles n l = .ok (l.map (angleVal n)) := by
  induction l with
  | nil => rfl
  | cons i rest ih =>
    unfold buildAngles
    rw [angleAt_ok h, ih, List.map_cons]

theorem anglesList_ok {n : ℤ} (h : n ≠ 1) :
    anglesList n = .ok (anglesPure n) := by
  unfold anglesList anglesPure
  exact buildAngles_ok (by omega) _

theorem anglesList_one : anglesList 1 = .error PyError.zeroDivisionError := by
  unfold anglesList
  have h1 : (1 : ℤ).toNat = 1 := rfl
  rw [h1]
  have h2 : List.range 1 = [0] := rfl
  rw [h2]
  unfold buildAngles angleAt
  norm_num

theorem anglesPure_length (n : ℤ) : (anglesPure n).length = n.toNat := by
  unfold anglesPure
  rw [List.length_map, List.length_range]

theorem angleVal_zero (n : ℤ) : angleVal n 0 = 0 := by
  unfold angleVal
  rw [Nat.cast_zero, zero_div, ease_zero, mul_zero]

theorem angleVal_last (n : ℤ) (hn : 2 ≤ n) : angleVal n (n.toNat - 1) = 360 := by
  unfold angleVal
  have hcast : ((n.toNat - 1 : ℕ) : ℝ) = ((n - 1 : ℤ) : ℝ) := by
    have h : ((n.toNat - 1 : ℕ) : ℤ) = n - 1 := by omega
    exact_mod_cast h
  have hne : ((n - 1 : ℤ) : ℝ) ≠ 0 := by
    exact_mod_cast (by omega : (n - 1 : ℤ) ≠ 0)
  rw [hcast, div_self hne, ease_one]
  norm_num

theorem angleVal_bounds (n : ℤ) (i : ℕ) : 0 ≤ angleVal n i ∧ angleVal n i ≤ 360 := by
  unfold angleVal
  obtain ⟨h0, h1⟩ := ease_bounds ((i : ℝ) / ((n - 1 : ℤ) : ℝ))
  constructor
  · nlinarith
  · nlinarith

theorem angleVal_mono (n : ℤ) (hn : 2 ≤ n) {i j : ℕ} (hij : i ≤ j)
    (hj : (j : ℤ) ≤ n - 1) : angleVal n i ≤ angleVal n j := by
  unfold angleVal
  have hd : (0 : ℝ) < ((n - 1 : ℤ) : ℝ) := by
    exact_mod_cast (by omega : (0 : ℤ) < n - 1)
  have h0 : 0 ≤ (i : ℝ) / ((n - 1 : ℤ) : ℝ) := by positivity
  have h12 : (i : ℝ) / ((n - 1 : ℤ) : ℝ) ≤ (j : ℝ) / ((n - 1 : ℤ) : ℝ) := by
    gcongr
  have h1 : (j : ℝ) / ((n - 1 : ℤ) : ℝ) ≤ 1 := by
    rw [div_le_one hd]
    exact_mod_cast hj
  have := ease_mono h0 h12 h1
  nlinarith

/-- On success, the run wrote exactly the full frame list, the configured
duration and the loop directive; success requires `n_frames ≥ 2`. -/
theorem create_ok_inv {decoded : Option Image} {cfg : Config} {out : GifOutput}
    (h : create_eased_rotating_gif decoded cfg = .ok out) :
    ∃ img f0 rest, decoded = some img ∧
      2 ≤ cfg.n_frames ∧
      anglesList cfg.n_frames = .ok (anglesPure cfg.n_frames) ∧
      (anglesPure cfg.n_frames).map (fun theta => img.rotate theta) = f0 :: rest ∧
      out = ⟨cfg.output_path, f0 :: rest, cfg.frame_duration_ms,
             if cfg.loop_forever then 0 else 1⟩ := by
  unfold create_eased_rotating_gif at h
  cases decoded with
  | none => exact absurd h (by simp)
  | some img =>
    have hne1 : cfg.n_frames ≠ 1 := by
      intro h1
      rw [h1, anglesList_one] at h
      simp at h
    have hang : anglesList cfg.n_frames = .ok (anglesPure cfg.n_frames) :=
      anglesList_ok hne1
    rw [hang] at h
    simp only [] at h
    cases hmap : (anglesPure cfg.n_frames).map (fun theta => img.rotate theta) with
    | nil => rw [hmap] at h; simp at h
    | cons f0 rest =>
      rw [hmap] at h
      simp only [Except.ok.injEq] at h
      have hlen : 0 < (anglesPure cfg.n_frames).length := by
        rw [← List.length_map (anglesPure cfg.n_frames)
            (fun theta => img.rotate theta), hmap]
        simp
      rw [anglesPure_length] at hlen
      have h2 : 2 ≤ cfg.n_frames := by omega
      exact ⟨img, f0, rest, rfl, h2, hang, hmap, h.symm⟩

/-- For `n_frames ≥ 2`, the run succeeds and writes this exact output. -/
theorem create_ok_form (img : Image) (cfg : Config) (h : 2 ≤ cfg.n_frames) :
    create_eased_rotating_gif (some img) cfg =
      .ok ⟨cfg.output_path,
           (anglesPure cfg.n_frames).map (fun theta => img.rotate theta),
           cfg.frame_duration_ms, if cfg.loop_forever then 0 else 1⟩ := by
  have hne1 : cfg.n_frames ≠ 1 := by omega
  have hang : anglesList cfg.n_frames = .ok (anglesPure cfg.n_frames) :=
    anglesList_ok hne1
  unfold create_eased_rotating_gif
  rw [hang]
  have hlen : 0 < (anglesPure cfg.n_frames).length := by
    rw [anglesPure_length]; omega
  obtain ⟨a, l, hal⟩ := List.exists_cons_of_ne_nil (List.ne_nil_of_length_pos hlen)
  rw [hal, List.map_cons]
  rfl

/-! ### Claim theorems about the angle sequence and the generator -/

/-- Claim C1: for `n_frames = N ≥ 2` the angle loop raises nothing and the
angle sequence has length exactly `N`, first element exactly `0.0`, last
element exactly `360.0`, is monotonically non-decreasing, and every element
lies in `[0, 360]`. -/
theorem angle_sequence_spec (n : ℤ) (h : 2 ≤ n) :
    anglesList n = .ok (anglesPure n) ∧
      ((anglesPure n).length : ℤ) = n ∧
      (anglesPure n).head? = some 0 ∧
      (anglesPure n).getLast? = some 360 ∧
      (anglesPure n).Pairwise (· ≤ ·) ∧
      ∀ x ∈ anglesPure n, 0 ≤ x ∧ x ≤ 360 := by
  have hm : n.toNat = (n.toNat - 1) + 1 := by omega
  refine ⟨anglesList_ok (by omega), ?_, ?_, ?_, ?_, ?_⟩
  · rw [anglesPure_length]; omega
  · unfold anglesPure
    rw [hm, List.range_succ_eq_map, List.map_cons, List.head?_cons, angleVal_zero]
  · unfold anglesPure
    rw [hm, List.range_succ, List.map_append, List.map_singleton,
      List.getLast?_concat, angleVal_last n h]
  · unfold anglesPure
    rw [List.pairwise_map, List.pairwise_iff_get]
    intro i j hij
    simp only [List.get_eq_getElem, List.getElem_range]
    have hij' : (i : ℕ) < (j : ℕ) := hij
    have hjlt : (j : ℕ) < n.toNat := by
      have hj := j.isLt
      simpa using hj
    exact angleVal_mono n h (le_of_lt hij') (by omega)
  · intro x hx
    obtain ⟨i, -, rfl⟩ := List.mem_map.mp hx
    exact angleVal_bounds n i

/-- Witness for C1 at `n = 2`. -/
theorem angle_sequence_spec_witness :
    (2 : ℤ) ≤ 2 ∧
      (anglesList 2 = .ok (anglesPure 2) ∧
        ((anglesPure 2).length : ℤ) = 2 ∧
        (anglesPure 2).head? = some 0 ∧
        (anglesPure 2).getLast? = some 360 ∧
        (anglesPure 2).Pairwise (· ≤ ·) ∧
        ∀ x ∈ anglesPure 2, 0 ≤ x ∧ x ≤ 360) :=
  ⟨le_refl 2, angle_sequence_spec 2 (le_refl 2)⟩

/-- Claim C3 concerns the source's behavior at `n_frames = 1`: the claim says
no division-by-zero is raised; the code in fact computes
`t = 0 / float(0)` on the first loop iteration, which raises
`ZeroDivisionError` (there is no special case).  This theorem evaluates the
embedded code at the failing input. -/
theorem single_frame_zero_division :
    create_eased_rotating_gif (some ⟨64, 64⟩)
        ⟨"icon.png", "rotating_icon.gif", 1, 100, true⟩
      = .error PyError.zeroDivisionError := by
  have h1 : anglesList (1 : ℤ) = .error PyError.zeroDivisionError := anglesList_one
  unfold create_eased_rotating_gif
  rw [show (⟨"icon.png", "rotating_icon.gif", 1, 100, true⟩ : Config).n_frames
      = (1 : ℤ) from rfl, h1]

/-- Counterexample to C4: at `n_frames = 0` (with a decodable input) the
operation does not fail with the spec's configuration-error class; it runs
past decoding and fails with an `IndexError` at `frames[0]`. -/
theorem frame_count_zero_not_config_error :
    create_eased_rotating_gif (some ⟨64, 64⟩) ⟨"icon.png", "out.gif", 0, 100, true⟩
        = .error PyError.indexError ∧
      create_eased_rotating_gif (some ⟨64, 64⟩) ⟨"icon.png", "out.gif", 0, 100, true⟩
        ≠ .error PyError.configError := by
  have h : create_eased_rotating_gif (some ⟨64, 64⟩) ⟨"icon.png", "out.gif", 0, 100, true⟩
      = .error PyError.indexError := rfl
  refine ⟨h, ?_⟩
  rw [h]
  simp

/-- Amended C4: for every integer `n_frames < 1` (with a decodable input),
the operation fails with an `IndexError` raised when indexing the empty frame
list at the save step — after the input was decoded, not as an immediately
reported configuration error — and nothing is written to the output path. -/
theorem frame_count_below_one_index_error (img : Image) (cfg : Config)
    (h : cfg.n_frames < 1) :
    create_eased_rotating_gif (some img) cfg = .error PyError.indexError := by
  have htn : cfg.n_frames.toNat = 0 := by omega
  have hang : anglesList cfg.n_frames = .ok [] := by
    unfold anglesList
    rw [htn]
    rfl
  unfold create_eased_rotating_gif
  rw [hang]
  rfl

/-- Witness for the amended C4 at `n_frames = -3`. -/
theorem frame_count_below_one_index_error_witness :
    (⟨"icon.png", "out.gif", -3, 100, true⟩ : Config).n_frames < 1 ∧
      create_eased_rotating_gif (some ⟨64, 64⟩) ⟨"icon.png", "out.gif", -3, 100, true⟩
        = .error PyError.indexError :=
  ⟨by decide,
    frame_count_below_one_index_error ⟨64, 64⟩
      ⟨"icon.png", "out.gif", -3, 100, true⟩ (by decide)⟩

/-- Claim C5: whatever a successful run writes carries loop directive `0`
when `loop_forever` is true and `1` when `loop_forever` is false. -/
theorem loop_directive_mapping (decoded : Option Image) (cfg : Config) (out : GifOutput)
    (h : create_eased_rotating_gif decoded cfg = .ok out) :
    out.loop = if cfg.loop_forever then 0 else 1 := by
  obtain ⟨img, f0, rest, -, -, -, -, hout⟩ := create_ok_inv h
  rw [hout]

/-- Witness for C5 at a successful run with `loop_forever = false`. -/
theorem loop_directive_mapping_witness :
    create_eased_rotating_gif (some ⟨64, 64⟩) ⟨"a.png", "b.gif", 2, 100, false⟩
        = .ok ⟨"b.gif", (anglesPure 2).map (fun theta => Image.rotate ⟨64, 64⟩ theta),
               100, 1⟩ ∧
      (⟨"b.gif", (anglesPure 2).map (fun theta => Image.rotate ⟨64, 64⟩ theta),
         100, 1⟩ : GifOutput).loop
        = if (⟨"a.png", "b.gif", 2, 100, false⟩ : Config).loop_forever then 0 else 1 := by
  have h : create_eased_rotating_gif (some ⟨64, 64⟩) ⟨"a.png", "b.gif", 2, 100, false⟩
      = .ok ⟨"b.gif", (anglesPure 2).map (fun theta => Image.rotate ⟨64, 64⟩ theta),
             100, 1⟩ := by
    simpa using create_ok_form ⟨64, 64⟩ ⟨"a.png", "b.gif", 2, 100, false⟩ (by decide)
  exact ⟨h, loop_directive_mapping _ _ _ h⟩

/-- Claim C6: when the input path does not decode to an image, the operation
fails with the decode-class error before any frame work, and no output value
is produced (in this embedding an `.error` result is exactly "nothing was
written to `output_path`", since the decode is the first step of the
function and the single write happens only on `.ok`). -/
theorem decode_failure_no_output (cfg : Config) :
    create_eased_rotating_gif none cfg = .error PyError.decodeError := rfl

/-- Claim C9: every frame written by a successful run has exactly the source
raster's width and height, the rotation primitive is canvas-preserving at
every angle, and the number of frames equals the number of angles equals
`n_frames`. -/
theorem frame_dimension_invariant (img : Image) (cfg : Config) (out : GifOutput)
    (h : create_eased_rotating_gif (some img) cfg = .ok out) :
    (∀ f ∈ out.frames, f.width = img.width ∧ f.height = img.height) ∧
      (∀ theta : ℝ, (img.rotate theta).width = img.width ∧
        (img.rotate theta).height = img.height) ∧
      anglesList cfg.n_frames = .ok (anglesPure cfg.n_frames) ∧
      out.frames.length = (anglesPure cfg.n_frames).length ∧
      (out.frames.length : ℤ) = cfg.n_frames := by
  obtain ⟨img', f0, rest, hsome, h2, hang, hmap, hout⟩ := create_ok_inv h
  obtain rfl : img' = img := (Option.some.inj hsome).symm
  have hfr : out.frames = f0 :: rest := by rw [hout]
  refine ⟨?_, ?_, hang, ?_, ?_⟩
  · intro f hf
    rw [hfr, ← hmap] at hf
    obtain ⟨theta, -, rfl⟩ := List.mem_map.mp hf
    exact ⟨rfl, rfl⟩
  · intro theta
    exact ⟨rfl, rfl⟩
  · rw [hfr, ← hmap, List.length_map]
  · rw [hfr, ← hmap, List.length_map, anglesPure_length]
    omega

/-- Witness for C9 at a successful run with `n_frames = 2`. -/
theorem frame_dimension_invariant_witness :
    create_eased_rotating_gif (some ⟨64, 64⟩) ⟨"a.png", "b.gif", 2, 100, true⟩
        = .ok ⟨"b.gif", (anglesPure 2).map (fun theta => Image.rotate ⟨64, 64⟩ theta),
               100, 0⟩ ∧
      ((∀ f ∈ ((anglesPure 2).map (fun theta => Image.rotate ⟨64, 64⟩ theta)),
          f.width = 64 ∧ f.height = 64) ∧
        (∀ theta : ℝ, (Image.rotate ⟨64, 64⟩ theta).width = 64 ∧
          (Image.rotate ⟨64, 64⟩ theta).height = 64) ∧
        anglesList 2 = .ok (anglesPure 2) ∧
        ((anglesPure 2).map (fun theta => Image.rotate ⟨64, 64⟩ theta)).length
          = (anglesPure 2).length ∧
        (((anglesPure 2).map (fun theta => Image.rotate ⟨64, 64⟩ theta)).length : ℤ)
          = 2) := by
  have h : create_eased_rotating_gif (some ⟨64, 64⟩) ⟨"a.png", "b.gif", 2, 100, true⟩
      = .ok ⟨"b.gif", (anglesPure 2).map (fun theta => Image.rotate ⟨64, 64⟩ theta),
             100, 0⟩ := by
    simpa using create_ok_form ⟨64, 64⟩ ⟨"a.png", "b.gif", 2, 100, true⟩ (by decide)
  exact ⟨h, frame_dimension_invariant ⟨64, 64⟩ ⟨"a.png", "b.gif", 2, 100, true⟩ _ h⟩
